import Mathlib

/-!
Verification of the pysyslog-lfc core against its natural-language
specification.  The definitions below are a shallow embedding of the
Python sources (`src/pysyslog/channels.py`, `config.py`, `flow.py`,
`runtime.py` and the built-in components); machine state is passed
explicitly and fallible operations return `Except`/`Option`.
-/

deriving instance DecidableEq for Except

namespace Pysyslog

/-! ## Configuration data model (config.py) -/

/-- Embeds `config.ChannelConfig` (config.py).  `maxsize` and `retry_limit`
are Python ints (no positivity validation is performed by the loader, so
they may be zero or negative); `ack_timeout` is a float, modelled as `Rat`. -/
structure ChannelConfig where
  name : String
  maxsize : Int := 1000
  ack_timeout : Rat := 30
  retry_limit : Int := 3
deriving Repr, DecidableEq

/-- Embeds `config.ComponentConfig`: a component type name plus its option
mapping (insertion-ordered, as in the INI file). -/
structure ComponentConfig where
  type : String
  options : List (String × String) := []
deriving Repr, DecidableEq

/-- Embeds `config.FilterConfig`. -/
structure FilterConfig where
  name : String
  component : ComponentConfig
  stage : String := "parser"
deriving Repr, DecidableEq

/-- Embeds `config.FlowConfig`.  `channel` is the raw value computed by the
loader (`cfg.get("channel") or cfg.get("channel.name")`), which may be the
empty string. -/
structure FlowConfig where
  name : String
  input : ComponentConfig
  parser : ComponentConfig
  output : ComponentConfig
  output_format : Option String := none
  format_options : List (String × String) := []
  channel : Option String := none
  filters : List FilterConfig := []
deriving Repr, DecidableEq

/-- Embeds `config.RuntimeConfig`. -/
structure RuntimeConfig where
  flows : List FlowConfig
  channels : List (String × ChannelConfig)
  settings : List (String × String)
deriving Repr, DecidableEq

/-- A parsed INI file as `configparser` hands it to `ConfigLoader._parse`:
sections in file order, each with its options in insertion order.  Section
names and option names within a section are unique. -/
abbrev IniSections := List (String × List (String × String))

/-! ## Numeric literal models (Python `int(str)` / `float(str)`) -/

def digitsValAux : List Char → Nat → Option Nat
  | [], acc => some acc
  | ch :: rest, acc =>
    if ch.isDigit then digitsValAux rest (acc * 10 + (ch.toNat - 48)) else none

/-- The value of a non-empty all-digit character list. -/
def digitsVal : List Char → Option Nat
  | [] => none
  | l => digitsValAux l 0

/-- Value of a possibly empty digit list (empty reads as 0), used for the
integer and fractional parts of a float literal. -/
def digitsVal0 (l : List Char) : Option Nat :=
  digitsValAux l 0

/-- Models the Python builtin `int(str)` on plain decimal literals:
an optional sign followed by digits. -/
def pyInt (s : String) : Option Int :=
  match s.toList with
  | '-' :: rest => (digitsVal rest).map (fun n => -(n : Int))
  | '+' :: rest => (digitsVal rest).map (fun n => (n : Int))
  | l => (digitsVal l).map (fun n => (n : Int))

def pyFloatCore (l : List Char) : Option Rat :=
  let intPart := l.takeWhile (fun ch => ch ≠ '.')
  match l.dropWhile (fun ch => ch ≠ '.') with
  | [] => (digitsVal intPart).map (fun n => (n : Rat))
  | _ :: frac =>
    if intPart = [] ∧ frac = [] then none
    else
      match digitsVal0 intPart, digitsVal0 frac with
      | some a, some b => some ((a : Rat) + (b : Rat) / (10 : Rat) ^ frac.length)
      | _, _ => none

/-- Models the Python builtin `float(str)` on plain decimal literals
(`[sign]digits[.digits]`), as an exact rational. -/
def pyFloat (s : String) : Option Rat :=
  match s.toList with
  | '-' :: rest => (pyFloatCore rest).map (fun q => -q)
  | '+' :: rest => pyFloatCore rest
  | l => pyFloatCore l

/-! ## String helpers for dotted option names -/

def listStartsWith : List Char → List Char → Bool
  | _, [] => true
  | [], _ :: _ => false
  | a :: as, b :: bs => a == b && listStartsWith as bs

/-- Models Python `s.startswith(p)` (code-point wise, like Python). -/
def strStartsWith (s p : String) : Bool :=
  listStartsWith s.toList p.toList

/-- Models Python `s[n:]` (slicing by code points, like Python). -/
def strDrop (s : String) (n : Nat) : String :=
  String.mk (s.toList.drop n)

/-- Models `s.split(".", 1)[1]` (everything after the first dot); returns
`s` unchanged when there is no dot (the loader only calls this on names that
contain one). -/
def afterFirstDot (s : String) : String :=
  match s.toList.dropWhile (fun ch => ch ≠ '.') with
  | [] => s
  | _ :: rest => String.mk rest

/-- Models `s.split(".", 1)[0]` (everything before the first dot). -/
def beforeFirstDot (s : String) : String :=
  String.mk (s.toList.takeWhile (fun ch => ch ≠ '.'))

/-! ## Configuration loader (config.py, class ConfigLoader) -/

/-- Embeds the per-section body of `ConfigLoader._parse_channels`: the three
numeric options are converted in source order (`maxsize`, `ack_timeout`,
`retry_limit`), a conversion failure raising `ConfigError` (the Python
message appends the exception text, elided here).  Absent options take the
defaults 1000, 30.0 and 3.  No further validation is performed. -/
def parseChannelSection (sect : String) (cfg : List (String × String)) :
    Except String ChannelConfig := do
  let maxsize ←
    match cfg.lookup "maxsize" with
    | none => pure (1000 : Int)
    | some s =>
      match pyInt s with
      | some n => pure n
      | none => Except.error ("Invalid numeric value in [" ++ sect ++ "]")
  let ackTimeout ←
    match cfg.lookup "ack_timeout" with
    | none => pure (30 : Rat)
    | some s =>
      match pyFloat s with
      | some q => pure q
      | none => Except.error ("Invalid numeric value in [" ++ sect ++ "]")
  let retryLimit ←
    match cfg.lookup "retry_limit" with
    | none => pure (3 : Int)
    | some s =>
      match pyInt s with
      | some n => pure n
      | none => Except.error ("Invalid numeric value in [" ++ sect ++ "]")
  pure { name := afterFirstDot sect, maxsize := maxsize,
         ack_timeout := ackTimeout, retry_limit := retryLimit }

/-- Embeds `ConfigLoader._parse_channels`: every `channel.<name>` section
becomes a `ChannelConfig` keyed by `<name>`; other sections are skipped. -/
def parseChannels : IniSections → Except String (List (String × ChannelConfig))
  | [] => .ok []
  | p :: rest =>
    if strStartsWith p.1 "channel." then
      match parseChannelSection p.1 p.2 with
      | .error e => .error e
      | .ok cc =>
        match parseChannels rest with
        | .error e => .error e
        | .ok channels => .ok ((afterFirstDot p.1, cc) :: channels)
    else parseChannels rest

/-- Embeds `ConfigLoader._component_from_section`: requires the
`<pre>.type` option (raising `ConfigError` naming the missing option and
the section otherwise) and collects the remaining `<pre>.*` options with
the prefix stripped. -/
def componentFromSection (cfg : List (String × String)) (pre sect : String) :
    Except String ComponentConfig :=
  let key := pre ++ ".type"
  match cfg.lookup key with
  | none => .error ("Missing required option \x27" ++ key ++ "\x27 in [" ++ sect ++ "]")
  | some typeName =>
    .ok { type := typeName,
          options := (cfg.filter (fun p => strStartsWith p.1 (pre ++ ".") && p.1 != key)).map
            (fun p => (strDrop p.1 (pre ++ ".").length, p.2)) }

/-- Python `d[k] = v` on an insertion-ordered string dict: overwrite in
place, or append a new binding. -/
def assocSet (l : List (String × String)) (k v : String) : List (String × String) :=
  if l.any (fun p => p.1 == k) then
    l.map (fun p => if p.1 == k then (k, v) else p)
  else l ++ [(k, v)]

/-- Python `filters.setdefault(name, {})[opt] = value` on the nested
filter-declaration dict. -/
def assocSetNested (l : List (String × List (String × String))) (name k v : String) :
    List (String × List (String × String)) :=
  if l.any (fun p => p.1 == name) then
    l.map (fun p => if p.1 == name then (p.1, assocSet p.2 k v) else p)
  else l ++ [(name, [(k, v)])]

/-- Embeds the collection phase of `ConfigLoader._parse_filters`: options
starting with `filter` are routed to a named filter block (`filter.<name>.<opt>`),
or to the block named `default` for a bare `filter.<opt>`; an empty
remainder is skipped. -/
def collectFilters (cfg : List (String × String)) : List (String × List (String × String)) :=
  cfg.foldl
    (fun acc p =>
      if strStartsWith p.1 "filter" then
        let remainder := strDrop p.1 6
        let remainder := if strStartsWith remainder "." then strDrop remainder 1 else remainder
        if remainder = "" then acc
        else if remainder.toList.contains '.' then
          assocSetNested acc (beforeFirstDot remainder) (afterFirstDot remainder) p.2
        else assocSetNested acc "default" remainder p.2
      else acc)
    []

/-- Insertion step of the name sort: Python compares strings as their
code-point sequences, which is exactly `≤` on `toList`. -/
def insertFilterItem (x : String × List (String × String)) :
    List (String × List (String × String)) → List (String × List (String × String))
  | [] => [x]
  | y :: rest => if x.1.toList ≤ y.1.toList then x :: y :: rest else y :: insertFilterItem x rest

/-- Embeds `sorted(filters.items())`: the filter blocks ordered by name
(names are unique dict keys, so Python's tuple comparison reduces to name
comparison and the sort's result is the unique name-ordered permutation,
here produced by insertion sort). -/
def sortedFilterItems : List (String × List (String × String)) →
    List (String × List (String × String))
  | [] => []
  | x :: rest => insertFilterItem x (sortedFilterItems rest)

/-- The `ConfigError` raised for a filter block without a `type` option. -/
def filterTypeErrorMsg (name flowName : String) : String :=
  "Filter \x27" ++ name ++ "\x27 in flow \x27" ++ flowName ++
    "\x27 is missing the \x27type\x27 option"

/-- Embeds the emission phase of `ConfigLoader._parse_filters`: each sorted
block needs a truthy `type` (Python `if not type_name` also rejects the
empty string); `stage` defaults to `"parser"`; `stage` and `type` are
removed from the component options. -/
def buildFilterConfigs (flowName : String) :
    List (String × List (String × String)) → Except String (List FilterConfig)
  | [] => .ok []
  | p :: rest => do
    let stage := (p.2.lookup "stage").getD "parser"
    match p.2.lookup "type" with
    | none => Except.error (filterTypeErrorMsg p.1 flowName)
    | some typeName =>
      if typeName = "" then Except.error (filterTypeErrorMsg p.1 flowName)
      else
        let fcs ← buildFilterConfigs flowName rest
        pure ({ name := p.1,
                component := { type := typeName,
                               options := p.2.filter
                                 (fun q => q.1 != "stage" && q.1 != "type") },
                stage := stage } :: fcs)

/-- Embeds `ConfigLoader._parse_filters`. -/
def parseFilters (flowName : String) (cfg : List (String × String)) :
    Except String (List FilterConfig) :=
  buildFilterConfigs flowName (sortedFilterItems (collectFilters cfg))

/-- Python `a or b` on optional strings: the empty string is falsy. -/
def orFalsy (a b : Option String) : Option String :=
  match a with
  | some s => if s = "" then b else some s
  | none => b

/-- Embeds the per-section body of `ConfigLoader._parse_flows`: the three
required components in source order (input, parser, output), then the
output format, `format.*` options, the channel reference and the filter
declarations. -/
def parseFlowSection (sect : String) (cfg : List (String × String)) :
    Except String FlowConfig := do
  let name := afterFirstDot sect
  let inputC ← componentFromSection cfg "input" sect
  let parserC ← componentFromSection cfg "parser" sect
  let outputC ← componentFromSection cfg "output" sect
  let outputFormat := cfg.lookup "output.format"
  let formatOptions :=
    (cfg.filter (fun p => strStartsWith p.1 "format.")).map (fun p => (strDrop p.1 7, p.2))
  let channel := orFalsy (cfg.lookup "channel") (cfg.lookup "channel.name")
  let filters ← parseFilters name cfg
  pure { name := name, input := inputC, parser := parserC, output := outputC,
         output_format := outputFormat, format_options := formatOptions,
         channel := channel, filters := filters }

/-- Embeds `known_channels[channel_name] = ChannelConfig(name=channel_name)`
guarded by `if channel_name and channel_name not in known_channels`. -/
def registerChannel (known : List (String × ChannelConfig)) (channel : Option String) :
    List (String × ChannelConfig) :=
  match channel with
  | some s =>
    if s != "" && (known.lookup s).isNone then known ++ [(s, { name := s })] else known
  | none => known

/-- Embeds `ConfigLoader._parse_flows`: every `flow.<name>` section becomes
a `FlowConfig` in file order, auto-registering referenced channels; the
first failing section raises. -/
def parseFlows : IniSections → List (String × ChannelConfig) →
    Except String (List FlowConfig × List (String × ChannelConfig))
  | [], channels => .ok ([], channels)
  | p :: rest, channels =>
    if strStartsWith p.1 "flow." then
      match parseFlowSection p.1 p.2 with
      | .error e => .error e
      | .ok fc =>
        match parseFlows rest (registerChannel channels fc.channel) with
        | .error e => .error e
        | .ok (flows, known) => .ok (fc :: flows, known)
    else parseFlows rest channels

/-- Embeds `ConfigLoader._parse`: channels, then flows (threading the
channel map), then the `settings` section; zero flows is a `ConfigError`. -/
def loadConfig (sections : IniSections) : Except String RuntimeConfig := do
  let channels ← parseChannels sections
  let fc ← parseFlows sections channels
  let settings := (sections.lookup "settings").getD []
  if fc.1 = [] then Except.error "No flow sections were defined in the configuration"
  else pure { flows := fc.1, channels := fc.2, settings := settings }

/-! ## Reliability channel (channels.py) -/

/-- Embeds `channels.ChannelMessage`: id, payload, retry metadata. -/
structure ChannelMessage (α : Type) where
  id : Nat
  payload : α
  attempts : Nat := 0
  last_attempt : Rat := 0
deriving Repr, DecidableEq

/-- Embeds the mutable state of `channels.Channel`: the backing FIFO queue
(head = next message handed out by `get`), the in-flight map (an
association list keyed by delivery token; tokens are unique because ids
are allocated by a monotonic counter), the id counter and the closed flag.
The background watchdog task is modelled by explicit invocations of
`monitorSweep`. -/
structure Channel (α : Type) where
  config : ChannelConfig
  queue : List (ChannelMessage α) := []
  inflight : List (Nat × ChannelMessage α) := []
  counter : Nat := 0
  closed : Bool := false
deriving Repr, DecidableEq

/-- Errors raised by channel operations: `RuntimeError("Channel is closed")`
and `KeyError(f"Unknown delivery token {token}")`. -/
inductive ChanError where
  | closedError
  | keyError (token : Nat)
deriving Repr, DecidableEq

/-- Result of `Channel.get`: the closed-channel error, a cooperative block
on an empty queue, or a delivered `(token, payload)` with the new state. -/
inductive GetResult (α : Type) where
  | closedError
  | blocked
  | delivered (token : Nat) (payload : α) (chan : Channel α)
deriving Repr, DecidableEq

namespace Channel

variable {α : Type}

/-- Embeds `Channel.put`: raises if closed, otherwise allocates the next id
(`_next_id` increments the counter first) and appends the new message to the
tail of the queue.  The cooperative blocking of `asyncio.Queue.put` while the
queue is at `maxsize` is abstracted away: the model records the state once
the enqueue has completed. -/
def put (c : Channel α) (payload : α) : Except ChanError (Channel α) :=
  if c.closed then .error .closedError
  else
    let counter := c.counter + 1
    let message : ChannelMessage α := { id := counter, payload := payload }
    .ok { c with counter := counter, queue := c.queue ++ [message] }

/-- Embeds `Channel.get` at monotonic time `now`: raises if closed, blocks
while the queue is empty, otherwise pops the head, increments `attempts`,
stamps `last_attempt := now`, inserts the message into the in-flight map and
returns its token together with the payload. -/
def get (c : Channel α) (now : Rat) : GetResult α :=
  if c.closed then .closedError
  else
    match c.queue with
    | [] => .blocked
    | message :: rest =>
      let message := { message with attempts := message.attempts + 1, last_attempt := now }
      .delivered message.id message.payload
        { c with queue := rest, inflight := c.inflight ++ [(message.id, message)] }

/-- Embeds `dict.pop(token, None)` on the in-flight map: returns the popped
message (if any) and the state with that entry removed. -/
def popInflight (c : Channel α) (token : Nat) :
    Option (ChannelMessage α) × Channel α :=
  match c.inflight.lookup token with
  | none => (none, c)
  | some message =>
    (some message, { c with inflight := c.inflight.eraseP (fun p => p.1 == token) })

/-- Embeds `Channel.ack`: pops the token from the in-flight map; an unknown
token raises `KeyError`. -/
def ack (c : Channel α) (token : Nat) : Except ChanError (Channel α) :=
  match popInflight c token with
  | (none, _) => .error (.keyError token)
  | (some _, c1) => .ok c1

/-- Embeds `Channel.nack`: pops the token (unknown tokens raise `KeyError`);
when `requeue` is false the message is dropped; when the message's attempts
have reached `retry_limit` it is dropped silently; otherwise it is
re-enqueued at the tail of the queue. -/
def nack (c : Channel α) (token : Nat) (requeue : Bool := true) :
    Except ChanError (Channel α) :=
  match popInflight c token with
  | (none, _) => .error (.keyError token)
  | (some message, c1) =>
    if !requeue then .ok c1
    else if (message.attempts : Int) ≥ c.config.retry_limit then .ok c1
    else .ok { c1 with queue := c1.queue ++ [message] }

/-- Embeds `Channel.close`: idempotent; sets the closed flag, cancels the
watchdog, clears the in-flight map and drains the queue without retries. -/
def close (c : Channel α) : Channel α :=
  if c.closed then c
  else { c with closed := true, inflight := [], queue := [] }

/-- Embeds one wake of the watchdog `Channel._monitor_ack_timeouts` at time
`now` (the task sleeps `ack_timeout / 2` between wakes; sleeping is modelled
by the caller choosing `now`).  If the channel closed, the loop exits.
Otherwise every in-flight message with `now - last_attempt ≥ ack_timeout`
is popped from the in-flight map; those whose attempts are still below
`retry_limit` are re-enqueued at the tail in in-flight order, the rest are
dropped permanently. -/
def monitorSweep (c : Channel α) (now : Rat) : Channel α :=
  if c.closed then c
  else
    let isExpired : Nat × ChannelMessage α → Bool :=
      fun p => decide (now - p.2.last_attempt ≥ c.config.ack_timeout)
    let requeued :=
      ((c.inflight.filter isExpired).filter
        (fun p => decide ((p.2.attempts : Int) < c.config.retry_limit))).map (·.2)
    { c with
      inflight := c.inflight.filter (fun p => !isExpired p),
      queue := c.queue ++ requeued }

end Channel

/-! ## Flow pipeline (flow.py and the built-in components) -/

/-- A record as produced by the built-in JSON parser on flat objects with
string-valued fields: an insertion-ordered string mapping. -/
abbrev Record := List (String × String)

/-- Embeds `Flow._apply_filters` over the instantiated filters of one
stage: the filters run in list order and the first rejection stops the
scan. -/
def applyFilters : List (Record → Bool) → Record → Bool
  | [], _ => true
  | f :: rest, record => if f record then applyFilters rest record else false

/-- Embeds the stage partition built by `Flow.__init__`: filters of the
given stage, in the order they appear in `config.filters`. -/
def filtersForStage (st : String) (fcs : List FilterConfig) : List FilterConfig :=
  fcs.filter (fun fc => fc.stage == st)

/-- Scans a JSON string body up to the closing quote.  Escape sequences are
outside this model (none of the verified inputs contain them). -/
def scanString : List Char → Option (List Char × List Char)
  | [] => none
  | ch :: rest =>
    if ch = '"' then some ([], rest)
    else if ch = '\\' then none
    else (scanString rest).map (fun q => (ch :: q.1, q.2))

/-- Scans the members of a flat JSON object (`"key":"value"` pairs separated
by commas) after the opening brace, up to the closing brace.  The fuel is
the remaining input length. -/
def scanMembers : Nat → List Char → Option (List (String × String) × List Char)
  | 0, _ => none
  | Nat.succ fuel, input =>
    match input with
    | '"' :: rest =>
      match scanString rest with
      | none => none
      | some (key, rest1) =>
        match rest1 with
        | ':' :: '"' :: rest2 =>
          match scanString rest2 with
          | none => none
          | some (value, rest3) =>
            match rest3 with
            | ',' :: rest4 =>
              (scanMembers fuel rest4).map
                (fun q => ((String.mk key, String.mk value) :: q.1, q.2))
            | '\x7d' :: rest4 => some ([(String.mk key, String.mk value)], rest4)
            | _ => none
        | _ => none
    | _ => none

/-- Models the Python standard library `json.loads` restricted to flat
objects with string keys and string values and no surrounding whitespace
(the shape of every record in the verified scenarios); anything else is a
parse failure (`none`, standing for the raised `JSONDecodeError`). -/
def jsonLoads (s : String) : Option Record :=
  match s.toList with
  | '\x7b' :: '\x7d' :: rest => if rest = [] then some [] else none
  | '\x7b' :: rest =>
    match scanMembers rest.length rest with
    | some (pairs, []) => some pairs
    | _ => none
  | _ => none

/-- Embeds `parsers.json.JsonParser.parse` with the default
`allow_null = false`: an empty message is dropped (`none`); otherwise
`json.loads` runs and an invalid document raises (`.error`). -/
def jsonParse (message : String) : Except Unit (Option Record) :=
  if message = "" then .ok none
  else
    match jsonLoads message with
    | some record => .ok (some record)
    | none => .error ()

/-- Embeds `filters.field.FieldFilter.allow` for the `eq` operator with a
string-valued expected value on string-valued records: a missing field
compares `None == expected`, which is false; otherwise the field value is
compared with the configured value (`_convert` is the identity on
strings). -/
def fieldFilterAllow (fieldName expected : String) (record : Record) : Bool :=
  match record.lookup fieldName with
  | none => false
  | some v => v == expected

/-- Fuel-indexed renderer for `str.format`-style templates made of literal
text and simple `\x7bname\x7d` placeholders; `none` models the exceptions
`str.format` raises (unmatched braces, missing keys).  The fuel strictly
exceeds the template length, so it never runs out on the initial call. -/
def formatTemplateAux : Nat → List Char → Record → Option (List Char)
  | 0, _, _ => none
  | _ + 1, [], _ => some []
  | fuel + 1, '\x7b' :: rest, record =>
    match rest.dropWhile (fun ch => ch ≠ '\x7d') with
    | [] => none
    | _ :: rest2 =>
      match record.lookup (String.mk (rest.takeWhile (fun ch => ch ≠ '\x7d'))) with
      | none => none
      | some v => (formatTemplateAux fuel rest2 record).map (fun t => v.toList ++ t)
  | _ + 1, '\x7d' :: _, _ => none
  | fuel + 1, ch :: rest, record =>
    (formatTemplateAux fuel rest record).map (fun t => ch :: t)

/-- Embeds `formats.text.TextFormat.format`: renders the configured
template with `str.format(**record)` (modelled for plain `\x7bname\x7d`
placeholders). -/
def formatTemplate (template : String) (record : Record) : Option String :=
  (formatTemplateAux (template.length + 1) template.toList record).map String.mk

/-- The per-flow pipeline pieces `Flow.__init__` instantiates for the flows
verified here: stage-partitioned filters, a parser that may drop (`none`)
or raise (`.error`), and a text format that may raise (`none`). -/
structure FlowPipeline where
  inputFilters : List (Record → Bool) := []
  parserFilters : List (Record → Bool) := []
  outputFilters : List (Record → Bool) := []
  parse : String → Except Unit (Option Record)
  format : Record → Option String

/-- Embeds one iteration of `Flow._ingest_loop` on a raw line: input-stage
filters on the synthetic record, parse (a parser exception propagates —
the loop body has no handler), parser-stage filters, then the rendered
payload; a format exception likewise propagates.  `.ok none` means the
record was dropped and the loop continues; `.ok (some payload)` is the
`(record, rendered)` pair put on the channel. -/
def ingestLine (pl : FlowPipeline) (raw : String) : Except Unit (Option (Record × String)) :=
  if ! applyFilters pl.inputFilters [("raw", raw)] then .ok none
  else
    match pl.parse raw with
    | .error e => .error e
    | .ok none => .ok none
    | .ok (some parsed) =>
      if ! applyFilters pl.parserFilters parsed then .ok none
      else
        match pl.format parsed with
        | none => .error ()
        | some rendered => .ok (some (parsed, rendered))

/-- Embeds `Flow._ingest_loop` over a finite input: the sequence of
payloads put on the channel.  An uncaught exception (the loop catches only
`CancelledError`) terminates the ingest task, so lines after the offending
one are never processed. -/
def ingestLoop (pl : FlowPipeline) : List String → List (Record × String)
  | [] => []
  | raw :: rest =>
    match ingestLine pl raw with
    | .error _ => []
    | .ok none => ingestLoop pl rest
    | .ok (some payload) => payload :: ingestLoop pl rest

/-- The ingest behaviour the specification prescribes, for comparison with
`ingestLoop`: a parser or filter exception aborts that record only — it is
reported and the loop continues with subsequent records. -/
def ingestLoopPerSpec (pl : FlowPipeline) : List String → List (Record × String)
  | [] => []
  | raw :: rest =>
    match ingestLine pl raw with
    | .error _ => ingestLoopPerSpec pl rest
    | .ok none => ingestLoopPerSpec pl rest
    | .ok (some payload) => payload :: ingestLoopPerSpec pl rest

/-- Embeds `Flow._drain_loop` over the queued payloads when every write
succeeds: each message is delivered once in FIFO order; output-stage
filters are applied to the record, a rejection acks without writing,
otherwise the rendered payload is written and acked. -/
def drainLoop (pl : FlowPipeline) (payloads : List (Record × String)) : List String :=
  payloads.filterMap (fun p => if applyFilters pl.outputFilters p.1 then some p.2 else none)

/-- End-to-end run of one flow on a finite memory input with an
always-succeeding memory output: the list of records the output received. -/
def runFlow (pl : FlowPipeline) (lines : List String) : List String :=
  drainLoop pl (ingestLoop pl lines)

/-! ## Runtime supervisor (runtime.py) -/

/-- Observable shutdown/startup events of the supervisor. -/
inductive RuntimeEvent where
  | startFlow (name : String)
  | stopFlow (name : String)
  | closeChannel (name : String)
deriving Repr, DecidableEq

/-- The supervisor state: `self.flows` is a dict in insertion order (the
configuration order of the flow sections) and the channel registry holds
the shared channels. -/
structure Runtime where
  flowNames : List String
  channelNames : List String
deriving Repr, DecidableEq

/-- Embeds `Runtime.start`: starts every flow, iterating
`self.flows.values()` in insertion order. -/
def Runtime.startEvents (r : Runtime) : List RuntimeEvent :=
  r.flowNames.map RuntimeEvent.startFlow

/-- Embeds `Runtime.stop`: stops every flow, iterating
`self.flows.values()` in the same insertion order as `start`, then closes
every shared channel. -/
def Runtime.stopEvents (r : Runtime) : List RuntimeEvent :=
  r.flowNames.map RuntimeEvent.stopFlow ++ r.channelNames.map RuntimeEvent.closeChannel

/-- The stop order C8 claims: the reverse of the start order, then the
channel closes. -/
def Runtime.stopEventsPerClaim (r : Runtime) : List RuntimeEvent :=
  r.flowNames.reverse.map RuntimeEvent.stopFlow ++ r.channelNames.map RuntimeEvent.closeChannel

/-- The flows stopped by an event sequence, in order. -/
def flowStopOrder (evs : List RuntimeEvent) : List String :=
  evs.filterMap (fun e => match e with | .stopFlow n => some n | _ => none)

/-- The flows started by an event sequence, in order. -/
def flowStartOrder (evs : List RuntimeEvent) : List String :=
  evs.filterMap (fun e => match e with | .startFlow n => some n | _ => none)

/-! ## Concrete scenario data -/

/-- The channel configuration of the C2 scenario: an ack timeout of 50 time
units (the claim's 50 ms, with time measured in milliseconds) and
`retry_limit = 2`. -/
def c2Config : ChannelConfig :=
  { name := "test", maxsize := 4, ack_timeout := 50, retry_limit := 2 }

def c2Msg1 : ChannelMessage String :=
  { id := 1, payload := "delayed", attempts := 1, last_attempt := 0 }

def c2Msg2 : ChannelMessage String :=
  { id := 1, payload := "delayed", attempts := 2, last_attempt := 50 }

def c2Chan1 : Channel String :=
  { config := c2Config, queue := [{ id := 1, payload := "delayed" }], counter := 1 }

def c2Chan2 : Channel String := { config := c2Config, inflight := [(1, c2Msg1)], counter := 1 }

def c2Chan3 : Channel String := { config := c2Config, queue := [c2Msg1], counter := 1 }

def c2Chan4 : Channel String := { config := c2Config, inflight := [(1, c2Msg2)], counter := 1 }

def c2Chan5 : Channel String := { config := c2Config, counter := 1 }

/-- A concrete open channel with token 1 in flight, used by the C5
counterexample. -/
def c5Example : Channel String :=
  { config := { name := "cx" },
    inflight := [(1, { id := 1, payload := "m", attempts := 1 })] }

/-- A configuration with a `channel` section setting `maxsize = 0` and one
well-formed flow, used for C6. -/
def c6Sections : IniSections :=
  [("channel.buf", [("maxsize", "0")]),
   ("flow.main",
    [("input.type", "memory"), ("parser.type", "json"), ("output.type", "memory"),
     ("channel", "buf")])]

/-- The pipeline of the C3 scenario: memory input, JSON parser, one
parser-stage field filter keeping `level == "info"`, text format with
template `\x7bmessage\x7d`, memory output. -/
def c3Pipeline : FlowPipeline :=
  { parserFilters := [fieldFilterAllow "level" "info"],
    parse := jsonParse,
    format := formatTemplate "\x7bmessage\x7d" }

/-- The three input lines of the C3 scenario. -/
def c3Lines : List String :=
  ["\x7b\"message\":\"a\",\"level\":\"info\"\x7d",
   "\x7b\"message\":\"b\",\"level\":\"debug\"\x7d",
   "\x7b\"message\":\"c\",\"level\":\"info\"\x7d"]

/-- The C4 failing input: a line the JSON parser raises on, followed by a
record the pipeline would otherwise deliver. -/
def c4Lines : List String :=
  ["not json", "\x7b\"message\":\"a\",\"level\":\"info\"\x7d"]

/-- The option of the three required component types that
`_parse_flows` reports first for a section: `_component_from_section` runs
for `input`, then `parser`, then `output`, so the first absent
`<kind>.type` key determines the raised `ConfigError`. -/
def firstMissingComponent (cfg : List (String × String)) : Option String :=
  if cfg.lookup "input.type" = none then some "input"
  else if cfg.lookup "parser.type" = none then some "parser"
  else if cfg.lookup "output.type" = none then some "output"
  else none

/-- Filter declarations of the C7 witness flow, deliberately written with
`b` before `a` in the section. -/
def c7Cfg : List (String × String) :=
  [("filter.b.type", "field"), ("filter.b.field", "x"), ("filter.a.type", "field")]

/-- The filter list the loader emits for `c7Cfg`: sorted by name. -/
def c7Fcs : List FilterConfig :=
  [{ name := "a", component := { type := "field" } },
   { name := "b", component := { type := "field", options := [("field", "x")] } }]

/-! ## Theorems -/

/-- C1: for every channel and every token in the in-flight map,
`nack(token, requeue=true)` removes the message from the in-flight map and
re-enqueues it at the tail exactly when its attempts count is strictly below
the channel's `retry_limit` (otherwise it is dropped silently), and `nack`
on a token not in the in-flight map fails with a `KeyError` lookup error. -/
theorem nack_requeue_iff_attempts_lt_retry_limit {α : Type} (c : Channel α) (token : Nat) :
    (∀ message, c.inflight.lookup token = some message →
      c.nack token true = .ok { c with
        inflight := c.inflight.eraseP (fun p => p.1 == token),
        queue := if (message.attempts : Int) < c.config.retry_limit
                 then c.queue ++ [message] else c.queue })
    ∧ (c.inflight.lookup token = none →
        c.nack token true = .error (.keyError token)) := by
  constructor
  · intro message hlook
    by_cases hlt : (message.attempts : Int) < c.config.retry_limit
    · simp [Channel.nack, Channel.popInflight, hlook, hlt, not_le.mpr hlt]
    · simp [Channel.nack, Channel.popInflight, hlook, hlt, not_lt.mp hlt]
  · intro hlook
    simp [Channel.nack, Channel.popInflight, hlook]

/-- Witness for C1: a concrete channel with one in-flight message below the
retry limit is re-enqueued, exercising the theorem's hypotheses. -/
theorem nack_requeue_iff_attempts_lt_retry_limit_witness :
    (Channel.nack
      { config := { name := "w", retry_limit := 3 },
        inflight := [(1, { id := 1, payload := "hello", attempts := 1 })] }
      1 true : Except ChanError (Channel String)) =
      .ok { config := { name := "w", retry_limit := 3 },
            inflight := [],
            queue := [{ id := 1, payload := "hello", attempts := 1 }] } := by
  have h := (nack_requeue_iff_attempts_lt_retry_limit
    (α := String)
    { config := { name := "w", retry_limit := 3 },
      inflight := [(1, { id := 1, payload := "hello", attempts := 1 })] } 1).1
    { id := 1, payload := "hello", attempts := 1 } (by decide)
  simpa using h

/-- C2 counterexample: the concrete scenario of the claim, traced through the
embedded channel.  With `ack_timeout = 50` (the claim's 50 ms) and
`retry_limit = 2`, a consumer that calls `get` once and never acks sees a
second delivery with `attempts = 2` after one elapsed window, but at the
next elapsed window the watchdog finds `attempts = 2 ≥ retry_limit` and
permanently drops the message: the queue and in-flight map are both empty
and a third `get` blocks instead of returning the payload with
`attempts = 3`. -/
theorem watchdog_third_get_counterexample :
    (Channel.put { config := c2Config } "delayed" = .ok c2Chan1)
    ∧ c2Chan1.get 0 = .delivered 1 "delayed" c2Chan2
    ∧ c2Chan2.monitorSweep 50 = c2Chan3
    ∧ c2Chan3.get 50 = .delivered 1 "delayed" c2Chan4
    ∧ c2Msg2.attempts = 2
    ∧ c2Chan4.monitorSweep 100 = c2Chan5
    ∧ c2Chan5.queue = [] ∧ c2Chan5.inflight = []
    ∧ c2Chan5.get 100 = .blocked
    ∧ c2Chan5.monitorSweep 150 = c2Chan5 ∧ c2Chan5.get 150 = .blocked := by
  refine ⟨?_, ?_, ?_, ?_, ?_, ?_, ?_, ?_, ?_, ?_, ?_⟩ <;>
    norm_num [Channel.put, Channel.get, Channel.monitorSweep,
      c2Config, c2Msg1, c2Msg2, c2Chan1, c2Chan2, c2Chan3, c2Chan4, c2Chan5]

/-- C2 (amended): on an open channel whose single in-flight message has
timed out (`now - last_attempt ≥ ack_timeout`), one watchdog sweep removes
the message from the in-flight map and re-enqueues it at the tail exactly
when its attempts count is still below `retry_limit`; once attempts have
reached `retry_limit` the sweep drops the message permanently, so in the
claim's scenario the second `get` returns the payload with `attempts = 2`
but a third delivery never happens. -/
theorem watchdog_sweep_requeues_below_retry_limit {α : Type} (c : Channel α)
    (t : Nat) (m : ChannelMessage α) (now : Rat)
    (hcl : c.closed = false) (hin : c.inflight = [(t, m)])
    (hex : now - m.last_attempt ≥ c.config.ack_timeout) :
    c.monitorSweep now =
      { c with inflight := [],
               queue := if (m.attempts : Int) < c.config.retry_limit
                        then c.queue ++ [m] else c.queue } := by
  by_cases hlt : (m.attempts : Int) < c.config.retry_limit
  · simp [Channel.monitorSweep, hcl, hin, hex, hlt]
  · simp [Channel.monitorSweep, hcl, hin, hex, hlt]

/-- Witness for the amended C2: a concrete expired in-flight message below
the retry limit is re-enqueued by the sweep. -/
theorem watchdog_sweep_requeues_below_retry_limit_witness :
    Channel.monitorSweep
      { config := { name := "w", ack_timeout := 1, retry_limit := 2 },
        inflight := [(1, { id := 1, payload := "p", attempts := 1, last_attempt := 0 })] }
      1 =
      { config := { name := "w", ack_timeout := 1, retry_limit := 2 },
        inflight := [],
        queue := [({ id := 1, payload := "p", attempts := 1, last_attempt := 0 } :
          ChannelMessage String)] } := by
  have h := watchdog_sweep_requeues_below_retry_limit
    (α := String)
    { config := { name := "w", ack_timeout := 1, retry_limit := 2 },
      inflight := [(1, { id := 1, payload := "p", attempts := 1, last_attempt := 0 })] }
    1 { id := 1, payload := "p", attempts := 1, last_attempt := 0 } 1
    (by decide) (by decide) (by norm_num)
  simpa using h

/-- C5 counterexample: a concrete channel with token 1 in flight is closed;
a subsequent `ack(1)` is an error (`KeyError`), contradicting the claim that
it is not, and `nack(1)` raises the same error rather than being a no-op. -/
theorem ack_after_close_counterexample :
    c5Example.close.ack 1 = .error (.keyError 1)
    ∧ c5Example.close.nack 1 true = .error (.keyError 1) := by
  decide

/-- C5 (amended): `close()` on an open channel clears the in-flight map, so
for every token that was in flight a subsequent `ack(token)` raises a
`KeyError` lookup error (it is treated as an unknown token, not silently
accepted) and `nack(token)` raises the same `KeyError` (it is not a no-op). -/
theorem ack_nack_after_close_key_error {α : Type} (c : Channel α) (token : Nat)
    (rq : Bool) (h : c.closed = false) :
    c.close.inflight = [] ∧
    c.close.ack token = .error (.keyError token) ∧
    c.close.nack token rq = .error (.keyError token) := by
  simp [Channel.close, h, Channel.ack, Channel.nack, Channel.popInflight]

/-- Witness for the amended C5 at a concrete open channel and token. -/
theorem ack_nack_after_close_key_error_witness :
    (Channel.close
      { config := { name := "w5" },
        inflight := [(7, { id := 7, payload := "x", attempts := 1 })] } :
        Channel String).ack 7 = .error (.keyError 7) := by
  exact (ack_nack_after_close_key_error
    { config := { name := "w5" },
      inflight := [(7, { id := 7, payload := "x", attempts := 1 })] }
    7 true (by decide)).2.1

/-- C10: on a closed channel, `get()` raises the closed-channel error
immediately, whatever the queue holds — it never blocks waiting for a
message. -/
theorem get_on_closed_raises {α : Type} (c : Channel α) (now : Rat)
    (h : c.closed = true) :
    c.get now = .closedError := by
  simp [Channel.get, h]

/-- Witness for C10: `get` on a freshly closed concrete channel (whose queue
is empty, so blocking would otherwise be the only alternative) raises. -/
theorem get_on_closed_raises_witness :
    (Channel.close { config := { name := "x" } } : Channel String).get 0 = .closedError := by
  exact get_on_closed_raises _ 0 (by decide)

/-- C3: the flow made of the memory input, JSON parser, one parser-stage
field filter keeping `level == "info"`, text format `\x7bmessage\x7d` and
memory output turns the three input lines of the scenario into exactly the
output records `"a"` then `"c"`, in that order. -/
theorem happy_path_memory_flow :
    runFlow c3Pipeline c3Lines = ["a", "c"] := by
  decide

/-- C4: the record-level evaluation at the failing input.  The ingest loop
as written propagates the parser's exception (its only handler is for
cancellation), so the valid record after the offending line is never
processed, whereas the behaviour the specification prescribes drops the
offending record and continues, delivering the valid record. -/
theorem ingest_exception_kills_loop :
    jsonParse "not json" = .error ()
    ∧ ingestLoop c3Pipeline c4Lines = []
    ∧ ingestLoopPerSpec c3Pipeline c4Lines =
        [([("message", "a"), ("level", "info")], "a")] := by
  decide

/-- C8 counterexample: a supervisor with two flows started in the order
`a`, `b` stops them in that same order, not in the reverse order the claim
asserts. -/
theorem stop_order_counterexample :
    (Runtime.stopEvents { flowNames := ["a", "b"], channelNames := ["ch"] } ≠
      Runtime.stopEventsPerClaim { flowNames := ["a", "b"], channelNames := ["ch"] })
    ∧ Runtime.stopEvents { flowNames := ["a", "b"], channelNames := ["ch"] } =
        [.stopFlow "a", .stopFlow "b", .closeChannel "ch"] := by
  decide

/-- C8 (amended): `Runtime.stop` stops the flows in the same order in which
`Runtime.start` started them (the insertion order of the flow map), and
only then closes every shared channel. -/
theorem stop_same_order_then_close_channels (r : Runtime) :
    flowStopOrder r.stopEvents = flowStartOrder r.startEvents
    ∧ r.stopEvents =
        r.flowNames.map RuntimeEvent.stopFlow ++
          r.channelNames.map RuntimeEvent.closeChannel := by
  refine ⟨?_, rfl⟩
  unfold Runtime.stopEvents Runtime.startEvents flowStopOrder flowStartOrder
  rw [List.filterMap_append]
  have hB : List.filterMap
      (fun e => match e with | RuntimeEvent.stopFlow n => some n | _ => none)
      (r.channelNames.map RuntimeEvent.closeChannel) = [] := by
    induction r.channelNames with
    | nil => rfl
    | cons x xs ih => simp [ih]
  rw [hB, List.append_nil]
  induction r.flowNames with
  | nil => rfl
  | cons x xs ih => simpa using ih

/-- C6 counterexample: the loader accepts `maxsize = 0`.  A configuration
whose `[channel.buf]` section sets `maxsize = 0` produces a `ChannelConfig`
with `maxsize = 0` and the whole configuration loads successfully — no
`ConfigError` is raised. -/
theorem maxsize_zero_accepted_counterexample :
    parseChannels c6Sections = .ok [("buf", { name := "buf", maxsize := 0 })]
    ∧ (loadConfig c6Sections).isOk = true := by
  exact ⟨rfl, rfl⟩

/-- C6 (amended): `_parse_channels` performs no positivity validation: for
any `maxsize` value that parses as an integer (zero included), the channel
section loads successfully into a `ChannelConfig` carrying exactly that
value. -/
theorem maxsize_accepted_without_validation (s : String) (n : Int)
    (h : pyInt s = some n) :
    parseChannels [("channel.buf", [("maxsize", s)])] =
      .ok [("buf", { name := "buf", maxsize := n })] := by
  have h1 : List.lookup "maxsize" [("maxsize", s)] = some s := rfl
  have h2 : List.lookup "ack_timeout" [("maxsize", s)] = none := rfl
  have h3 : List.lookup "retry_limit" [("maxsize", s)] = none := rfl
  have h4 : afterFirstDot "channel.buf" = "buf" := rfl
  have h5 : strStartsWith "channel.buf" "channel." = true := rfl
  simp [parseChannels, parseChannelSection, h1, h2, h3, h4, h5, h, pure, Except.pure,
    bind, Except.bind]

/-- Witness for the amended C6 at the concrete value `"0"`. -/
theorem maxsize_accepted_without_validation_witness :
    pyInt "0" = some 0 ∧
    parseChannels [("channel.buf", [("maxsize", "0")])] =
      .ok [("buf", { name := "buf", maxsize := 0 })] :=
  ⟨rfl, maxsize_accepted_without_validation "0" 0 rfl⟩

theorem mem_insertFilterItem {x z : String × List (String × String)}
    {l : List (String × List (String × String))} :
    z ∈ insertFilterItem x l ↔ z = x ∨ z ∈ l := by
  induction l with
  | nil => simp [insertFilterItem]
  | cons y rest ih =>
    by_cases hle : x.1.toList ≤ y.1.toList
    · rw [insertFilterItem, if_pos hle]
      simp only [List.mem_cons]
    · rw [insertFilterItem, if_neg hle]
      simp only [List.mem_cons, ih]
      tauto

theorem pairwise_insertFilterItem (x : String × List (String × String))
    (l : List (String × List (String × String)))
    (h : l.Pairwise (fun a b => a.1 ≤ b.1)) :
    (insertFilterItem x l).Pairwise (fun a b => a.1 ≤ b.1) := by
  induction l with
  | nil => simp [insertFilterItem]
  | cons y rest ih =>
    rw [List.pairwise_cons] at h
    by_cases hle : x.1.toList ≤ y.1.toList
    · rw [insertFilterItem, if_pos hle]
      refine List.pairwise_cons.mpr ⟨?_, List.pairwise_cons.mpr h⟩
      intro z hz
      rcases List.mem_cons.mp hz with rfl | hz
      · exact String.le_iff_toList_le.mpr hle
      · exact le_trans (String.le_iff_toList_le.mpr hle) (h.1 z hz)
    · rw [insertFilterItem, if_neg hle]
      refine List.pairwise_cons.mpr ⟨?_, ih h.2⟩
      intro z hz
      rcases mem_insertFilterItem.mp hz with rfl | hz
      · exact String.le_iff_toList_le.mpr (le_of_not_le hle)
      · exact h.1 z hz

theorem pairwise_sortedFilterItems (l : List (String × List (String × String))) :
    (sortedFilterItems l).Pairwise (fun a b => a.1 ≤ b.1) := by
  induction l with
  | nil => exact List.Pairwise.nil
  | cons x rest ih => exact pairwise_insertFilterItem x _ ih

theorem buildFilterConfigs_names (flowName : String)
    (l : List (String × List (String × String))) (fcs : List FilterConfig)
    (h : buildFilterConfigs flowName l = .ok fcs) :
    fcs.map (fun fc => fc.name) = l.map (fun p => p.1) := by
  induction l generalizing fcs with
  | nil =>
    simp only [buildFilterConfigs] at h
    cases h
    rfl
  | cons p rest ih =>
    simp only [buildFilterConfigs] at h
    rcases hty : p.2.lookup "type" with _ | tname <;> rw [hty] at h <;> dsimp only at h
    · cases h
    · by_cases hemp : tname = ""
      · rw [if_pos hemp] at h
        cases h
      · rw [if_neg hemp] at h
        rcases hrec : buildFilterConfigs flowName rest with e | fcs' <;>
          rw [hrec] at h <;>
          simp only [bind, Except.bind, pure, Except.pure] at h
        · cases h
        · cases h
          simpa using ih fcs' hrec

theorem applyFilters_stops (inst : FilterConfig → Record → Bool)
    (xs : List FilterConfig) (f : FilterConfig) (ys : List FilterConfig)
    (record : Record)
    (hxs : ∀ g ∈ xs, inst g record = true) (hf : inst f record = false) :
    applyFilters ((xs ++ f :: ys).map inst) record = false := by
  induction xs with
  | nil => simp [applyFilters, hf]
  | cons g gs ih =>
    have hg := hxs g (List.mem_cons_self g gs)
    simp only [List.cons_append, List.map_cons, applyFilters, hg, if_true]
    exact ih (fun q hq => hxs q (List.mem_cons_of_mem g hq))

/-- C7: for every flow whose filter declarations parse, the loader emits
the filters sorted lexicographically by name; each stage's filters (the
sub-list `Flow.__init__` routes to that stage) keep that lexicographic
order, and at run time `_apply_filters` evaluates them in list order,
returning `false` as soon as one filter rejects the record — whatever
filters follow the first rejecting one. -/
theorem filters_sorted_and_first_reject (flowName : String)
    (cfg : List (String × String)) (st : String) (fcs : List FilterConfig)
    (h : parseFilters flowName cfg = .ok fcs) :
    fcs.Pairwise (fun a b => a.name ≤ b.name)
    ∧ (filtersForStage st fcs).Pairwise (fun a b => a.name ≤ b.name)
    ∧ ∀ (inst : FilterConfig → Record → Bool) (xs : List FilterConfig)
        (f : FilterConfig) (ys : List FilterConfig) (record : Record),
        filtersForStage st fcs = xs ++ f :: ys →
        (∀ g ∈ xs, inst g record = true) → inst f record = false →
        applyFilters ((filtersForStage st fcs).map inst) record = false := by
  have hnames := buildFilterConfigs_names flowName
    (sortedFilterItems (collectFilters cfg)) fcs h
  have hsorted := pairwise_sortedFilterItems (collectFilters cfg)
  have h1 : fcs.Pairwise (fun a b => a.name ≤ b.name) := by
    have hm : (fcs.map (fun fc => fc.name)).Pairwise (fun a b : String => a ≤ b) := by
      rw [hnames]
      exact List.pairwise_map.mpr hsorted
    exact List.pairwise_map.mp hm
  refine ⟨h1, List.Pairwise.sublist (List.filter_sublist fcs) h1, ?_⟩
  intro inst xs f ys record hdec hxs hf
  rw [hdec]
  exact applyFilters_stops inst xs f ys record hxs hf

/-- Witness for C7: the deliberately unordered declarations of `c7Cfg` are
emitted sorted by name, and the emitted list is name-ordered. -/
theorem filters_sorted_and_first_reject_witness :
    parseFilters "demo" c7Cfg = .ok c7Fcs
    ∧ c7Fcs.Pairwise (fun a b => a.name ≤ b.name) :=
  ⟨rfl, (filters_sorted_and_first_reject "demo" c7Cfg "parser" c7Fcs rfl).1⟩

theorem parseFlowSection_missing (sect : String) (cfg : List (String × String)) (k : String)
    (h : firstMissingComponent cfg = some k) :
    parseFlowSection sect cfg =
      .error ("Missing required option \x27" ++ (k ++ ".type") ++ "\x27 in [" ++ sect ++ "]") := by
  simp only [firstMissingComponent] at h
  by_cases h1 : cfg.lookup "input.type" = none
  · rw [if_pos h1] at h
    cases h
    have e1 : cfg.lookup ("input" ++ ".type") = none := h1
    simp only [parseFlowSection, componentFromSection, e1, bind, Except.bind]
  · rw [if_neg h1] at h
    rcases ht1 : cfg.lookup "input.type" with _ | t1
    · exact absurd ht1 h1
    · have e1 : cfg.lookup ("input" ++ ".type") = some t1 := ht1
      by_cases h2 : cfg.lookup "parser.type" = none
      · rw [if_pos h2] at h
        cases h
        have e2 : cfg.lookup ("parser" ++ ".type") = none := h2
        simp only [parseFlowSection, componentFromSection, e1, e2, bind, Except.bind]
      · rw [if_neg h2] at h
        rcases ht2 : cfg.lookup "parser.type" with _ | t2
        · exact absurd ht2 h2
        · have e2 : cfg.lookup ("parser" ++ ".type") = some t2 := ht2
          by_cases h3 : cfg.lookup "output.type" = none
          · rw [if_pos h3] at h
            cases h
            have e3 : cfg.lookup ("output" ++ ".type") = none := h3
            simp only [parseFlowSection, componentFromSection, e1, e2, e3, bind, Except.bind]
          · rw [if_neg h3] at h
            cases h

theorem parseFlows_missing (sect : String) (opts : List (String × String)) (k : String)
    (after : IniSections)
    (hsect : strStartsWith sect "flow." = true)
    (hmiss : firstMissingComponent opts = some k) :
    ∀ (before : IniSections),
      (∀ q ∈ before, strStartsWith q.1 "flow." = true →
        ∃ fc, parseFlowSection q.1 q.2 = .ok fc) →
      ∀ channels, parseFlows (before ++ (sect, opts) :: after) channels =
        .error ("Missing required option \x27" ++ (k ++ ".type") ++ "\x27 in [" ++ sect ++ "]") := by
  intro before
  induction before with
  | nil =>
    intro _ channels
    simp only [List.nil_append, parseFlows, hsect, if_true]
    rw [parseFlowSection_missing sect opts k hmiss]
  | cons q rest ih =>
    intro hbefore channels
    simp only [List.cons_append, parseFlows]
    by_cases hq : strStartsWith q.1 "flow." = true
    · obtain ⟨fc, hfc⟩ := hbefore q (List.mem_cons_self q rest) hq
      have ihh := ih (fun q' hq' hfl => hbefore q' (List.mem_cons_of_mem q hq') hfl)
        (registerChannel channels fc.channel)
      simp only [hq, if_true, hfc, List.append_eq, ihh]
    · have hqf : strStartsWith q.1 "flow." = false := by
        simpa using hq
      simp only [hqf, Bool.false_eq_true, if_false]
      exact ih (fun q' hq' hfl => hbefore q' (List.mem_cons_of_mem q hq') hfl) channels

/-- C9: for every configuration containing a flow section that lacks one of
the required `input.type`, `parser.type`, `output.type` options — provided
the channel sections load and the flow sections before it are themselves
well-formed, so this is the section whose error the loader reports —
loading fails with a `ConfigError` whose message names the first missing
option of that section and the flow section it belongs to. -/
theorem missing_component_type_error
    (before after : IniSections) (sect : String) (opts : List (String × String))
    (chans : List (String × ChannelConfig)) (k : String)
    (hsect : strStartsWith sect "flow." = true)
    (hch : parseChannels (before ++ (sect, opts) :: after) = .ok chans)
    (hbefore : ∀ q ∈ before, strStartsWith q.1 "flow." = true →
        ∃ fc, parseFlowSection q.1 q.2 = .ok fc)
    (hmiss : firstMissingComponent opts = some k) :
    loadConfig (before ++ (sect, opts) :: after) =
      .error ("Missing required option \x27" ++ (k ++ ".type") ++ "\x27 in [" ++ sect ++ "]") := by
  have hflows := parseFlows_missing sect opts k after hsect hmiss before hbefore chans
  simp only [loadConfig, bind, Except.bind, hch, hflows]

/-- Witness for C9: a flow section with `parser.type` and `output.type` but
no `input.type` makes the whole load fail with the `ConfigError` naming
`input.type` and `[flow.x]`. -/
theorem missing_component_type_error_witness :
    loadConfig [("flow.x", [("parser.type", "text"), ("output.type", "memory")])] =
      .error ("Missing required option \x27" ++ ("input" ++ ".type") ++
        "\x27 in [" ++ "flow.x" ++ "]") := by
  exact missing_component_type_error [] []
    "flow.x" [("parser.type", "text"), ("output.type", "memory")] [] "input"
    rfl rfl (by simp) rfl

end Pysyslog
